import Mathlib

/-!
Verification of the connection-hub-store fan-out engine of the go-chat
repository (package `chat-app`: `internal/websocket/hub.go`,
`internal/websocket/message.go`, the `Client` read/write pumps, and the
Redis adapter `internal/cache`, store-integrated hub variant).

The Go code is shallowly embedded: the Redis store is a record of
association lists mirroring the key schema (`room:{id}:messages`,
`room:{id}:users`, `room:{id}:message_count`, `global:users`), the hub
state is a record of the hub maps plus per-connection state, and every
handler of the hub event loop becomes a pure state-transformer.  Go
`time.Duration` values are nanosecond integers; `time.Now()` is an
explicit `now : Nat` argument; channel sends append to a bounded queue.
-/

set_option linter.unusedVariables false

/-- Association-list update with Go-map semantics: replace the binding of
the first occurrence of the key, or append a fresh binding. -/
def assocSet {κ α : Type} [BEq κ] : List (κ × α) → κ → α → List (κ × α)
  | [], k, v => [(k, v)]
  | (k', v') :: t, k, v => if k' == k then (k, v) :: t else (k', v') :: assocSet t k v

/-- Association-list deletion (Go `delete(m, k)` / Redis key removal). -/
def assocRemove {κ α : Type} [BEq κ] (l : List (κ × α)) (k : κ) : List (κ × α) :=
  l.filter (fun p => !(p.1 == k))

theorem lookup_assocSet_self {κ α : Type} [BEq κ] [LawfulBEq κ]
    (l : List (κ × α)) (k : κ) (v : α) : (assocSet l k v).lookup k = some v := by
  induction l with
  | nil => simp [assocSet, List.lookup]
  | cons p t ih =>
    by_cases h : p.1 = k
    · simp [assocSet, h, List.lookup]
    · simp [assocSet, h, List.lookup, beq_false_of_ne (Ne.symm h), ih]

theorem lookup_assocSet_ne {κ α : Type} [BEq κ] [LawfulBEq κ]
    (l : List (κ × α)) (k k' : κ) (v : α) (h : k' ≠ k) :
    (assocSet l k v).lookup k' = l.lookup k' := by
  induction l with
  | nil => simp [assocSet, List.lookup, beq_false_of_ne h]
  | cons p t ih =>
    by_cases hp : p.1 = k
    · subst hp
      simp [assocSet, List.lookup, beq_false_of_ne h]
    · by_cases hq : k' = p.1
      · simp [assocSet, hp, List.lookup, hq]
      · simp [assocSet, hp, List.lookup, beq_false_of_ne hq, ih]

theorem assocRemove_cons_self {κ α : Type} [BEq κ] [LawfulBEq κ]
    (p : κ × α) (t : List (κ × α)) (k : κ) (hp : p.1 = k) :
    assocRemove (p :: t) k = assocRemove t k := by
  simp [assocRemove, List.filter_cons, hp]

theorem assocRemove_cons_ne {κ α : Type} [BEq κ] [LawfulBEq κ]
    (p : κ × α) (t : List (κ × α)) (k : κ) (hp : p.1 ≠ k) :
    assocRemove (p :: t) k = p :: assocRemove t k := by
  simp [assocRemove, List.filter_cons, beq_false_of_ne hp]

theorem lookup_assocRemove_self {κ α : Type} [BEq κ] [LawfulBEq κ]
    (l : List (κ × α)) (k : κ) : (assocRemove l k).lookup k = none := by
  induction l with
  | nil => simp [assocRemove, List.lookup]
  | cons p t ih =>
    by_cases hp : p.1 = k
    · rw [assocRemove_cons_self p t k hp]; exact ih
    · rw [assocRemove_cons_ne p t k hp]
      rw [show p = (p.1, p.2) from rfl, List.lookup_cons]
      simp only [beq_false_of_ne (Ne.symm hp)]
      exact ih

theorem lookup_assocRemove_ne {κ α : Type} [BEq κ] [LawfulBEq κ]
    (l : List (κ × α)) (k k' : κ) (h : k' ≠ k) :
    (assocRemove l k).lookup k' = l.lookup k' := by
  induction l with
  | nil => simp [assocRemove]
  | cons p t ih =>
    by_cases hp : p.1 = k
    · rw [assocRemove_cons_self p t k hp]
      rw [show p = (p.1, p.2) from rfl, List.lookup_cons]
      have : k' ≠ p.1 := fun e => h (e.trans hp)
      simp only [beq_false_of_ne this]
      exact ih
    · rw [assocRemove_cons_ne p t k hp]
      rw [show p = (p.1, p.2) from rfl, List.lookup_cons, List.lookup_cons]
      by_cases hq : k' = p.1
      · simp [hq]
      · simp only [beq_false_of_ne hq]
        exact ih

/-! ## Wire message schema (`internal/websocket/message.go`) -/

def TextMessageType : String := "text_message"
def UserJoinedMessageType : String := "user_joined"
def UserLeftMessageType : String := "user_left"
def RoomStatsUpdateType : String := "room_stats_update"
def RecentMessagesType : String := "recent_messages"
def UserListUpdateType : String := "user_list_update"
def GlobalUserCountUpdateType : String := "global_user_count_update"
def ErrorMessageType : String := "error_message"
def JoinRoomMessageType : String := "join_room"
def LeaveRoomMessageType : String := "leave_room"
def UserTypingMessageType : String := "user_typing"
def RequestStatsType : String := "request_room_stats"

/-- The typed `Data` payloads of `message.go` (`RoomStatsPayload`,
`UserListPayload`, `RecentMessagesPayload`, `GlobalUserCountPayload`),
as a tagged union; `noData` is Go's nil `interface{}` field. -/
inductive MsgData where
  | noData : MsgData
  | roomStats (roomID : String) (activeUsers messageCount : Int) : MsgData
  | userList (roomID : String) (users : List String) : MsgData
  | recentMessages (roomID : String) (messages : List String) : MsgData
  | globalCount (count : Int) : MsgData
  deriving DecidableEq, Repr

/-- The wire envelope `websocket.Message`.  Zero values of the Go struct
are the field defaults; `timestamp` counts nanoseconds. -/
structure Msg where
  type : String := ""
  content : String := ""
  username : String := ""
  roomID : String := ""
  timestamp : Nat := 0
  system : Bool := false
  data : MsgData := MsgData.noData
  deriving DecidableEq, Repr

/-! ## Store (`internal/cache/redis.go`) -/

/-- `maxRecentMessagesToStore` in hub.go. -/
def maxRecentMessagesToStore : Int := 50

/-- `maxRecentMessagesToSend` in hub.go (`N_send`). -/
def maxRecentMessagesToSend : Int := 20

/-- `defaultRoomUserSetTTL = 2 * time.Hour`, in nanoseconds. -/
def defaultRoomUserSetTTL : Int := 2 * 60 * 60 * 1000000000

/-- `defaultRecentMessagesListTTL = 24 * time.Hour`, in nanoseconds. -/
def defaultRecentMessagesListTTL : Int := 24 * 60 * 60 * 1000000000

/-- The chat-relevant contents of the Redis server, keyed by roomID under
the fixed key schema.  Lists are head-newest; user lists model Redis sets
(no duplicates by construction, deleted when they become empty, matching
Redis auto-removal of empty sets); TTL maps record the expiry durations
set by `EXPIRE`. -/
structure Store where
  roomMessages : List (String × List String) := []
  roomMsgTTL : List (String × Int) := []
  roomUsers : List (String × List String) := []
  roomUsersTTL : List (String × Int) := []
  roomMsgCount : List (String × Int) := []
  globalUsers : List String := []
  deriving DecidableEq, Repr

def emptyStore : Store := {}

/-- On a per-request Redis error the hub logs and keeps going with its
previous view of the store (`HUB_ERROR` branches); this helper is that
"log and continue" pattern. -/
def exceptStoreD (e : Except String Store) (d : Store) : Store :=
  match e with
  | .ok s => s
  | .error _ => d

/-- `AddRecentMessage`: guard the arguments, then `LPUSH` + `LTRIM 0
(maxMessages-1)` + `EXPIRE` inside one `TxPipeline`, so the whole update
is an `Except` value: either every step lands or the store is untouched.
A non-positive `messageTTL` falls back to `defaultRecentMessagesListTTL`. -/
def Store.addRecentMessage (st : Store) (roomID messageJSON : String)
    (maxMessages : Int) (messageTTL : Int) : Except String Store :=
  if roomID = "" then .error "roomID cannot be empty"
  else if messageJSON = "" then .error "messageJSON cannot be empty"
  else
    let old := (st.roomMessages.lookup roomID).getD []
    let pushed := messageJSON :: old
    let trimmed := if 0 < maxMessages then pushed.take maxMessages.toNat else pushed
    let ttl := if 0 < messageTTL then messageTTL else defaultRecentMessagesListTTL
    .ok { st with roomMessages := assocSet st.roomMessages roomID trimmed,
                  roomMsgTTL := assocSet st.roomMsgTTL roomID ttl }

/-- `GetRecentMessages`: `LRANGE 0 (count-1)` from the head; a missing
key yields the empty list, not an error; `count <= 0` defaults to 10. -/
def Store.getRecentMessages (st : Store) (roomID : String) (count : Int) :
    Except String (List String) :=
  if roomID = "" then .error "roomID cannot be empty"
  else
    let c := if count ≤ 0 then (10 : Int) else count
    .ok (((st.roomMessages.lookup roomID).getD []).take c.toNat)

/-- `AddActiveUserToRoom`: `SAdd` + `Expire` in one `TxPipeline`;
non-positive TTL falls back to `defaultRoomUserSetTTL`. -/
def Store.addActiveUserToRoom (st : Store) (roomID username : String)
    (userTTL : Int) : Except String Store :=
  if roomID = "" ∨ username = "" then .error "roomID and username cannot be empty"
  else
    let old := (st.roomUsers.lookup roomID).getD []
    let added := if username ∈ old then old else username :: old
    let ttl := if 0 < userTTL then userTTL else defaultRoomUserSetTTL
    .ok { st with roomUsers := assocSet st.roomUsers roomID added,
                  roomUsersTTL := assocSet st.roomUsersTTL roomID ttl }

/-- `RemoveActiveUserFromRoom`: `SRem`; removing from a missing key or an
absent member is not an error, and Redis drops a set key that becomes
empty (with its TTL). -/
def Store.removeActiveUserFromRoom (st : Store) (roomID username : String) :
    Except String Store :=
  if roomID = "" ∨ username = "" then .error "roomID and username cannot be empty"
  else
    match st.roomUsers.lookup roomID with
    | none => .ok st
    | some l =>
      let l' := l.erase username
      if l'.isEmpty then
        .ok { st with roomUsers := assocRemove st.roomUsers roomID,
                      roomUsersTTL := assocRemove st.roomUsersTTL roomID }
      else
        .ok { st with roomUsers := assocSet st.roomUsers roomID l' }

/-- `GetActiveUsersInRoom`: `SMembers`; missing key yields the empty list. -/
def Store.getActiveUsersInRoom (st : Store) (roomID : String) :
    Except String (List String) :=
  if roomID = "" then .error "roomID cannot be empty"
  else .ok ((st.roomUsers.lookup roomID).getD [])

/-- `AddUserToGlobalSet`: `SAdd` on `global:users` (no TTL). -/
def Store.addUserToGlobalSet (st : Store) (username : String) : Except String Store :=
  if username = "" then .error "username cannot be empty"
  else .ok { st with globalUsers :=
    if username ∈ st.globalUsers then st.globalUsers else username :: st.globalUsers }

/-- `RemoveUserFromGlobalSet`: `SRem` on `global:users`. -/
def Store.removeUserFromGlobalSet (st : Store) (username : String) : Except String Store :=
  if username = "" then .error "username cannot be empty"
  else .ok { st with globalUsers := st.globalUsers.erase username }

/-- `GetGlobalActiveUserCount`: `SCard global:users` (0 when missing);
transport failures are outside the embedding, so this read is total. -/
def Store.getGlobalActiveUserCount (st : Store) : Int :=
  Int.ofNat st.globalUsers.length

/-- `IncrementMessageCounter`: `INCR`, returning the new value. -/
def Store.incrementMessageCounter (st : Store) (roomID : String) :
    Except String (Int × Store) :=
  if roomID = "" then .error "roomID cannot be empty"
  else
    let n := (st.roomMsgCount.lookup roomID).getD 0 + 1
    .ok (n, { st with roomMsgCount := assocSet st.roomMsgCount roomID n })

/-- `GetRoomMessageCount`: `GET` of the counter, 0 when the key is
missing (counters are integers in the embedding, so the `CorruptValue`
parse failure cannot arise). -/
def Store.getRoomMessageCount (st : Store) (roomID : String) : Except String Int :=
  if roomID = "" then .error "roomID cannot be empty"
  else .ok ((st.roomMsgCount.lookup roomID).getD 0)

/-- `GetRoomStats`: `SCard` of the room user set paired with the message
counter (`active_users`, `message_count`). -/
def Store.getRoomStats (st : Store) (roomID : String) : Except String (Int × Int) :=
  if roomID = "" then .error "roomID cannot be empty"
  else .ok (Int.ofNat ((st.roomUsers.lookup roomID).getD []).length,
            (st.roomMsgCount.lookup roomID).getD 0)

/-! ## Connection and hub (`internal/websocket/hub.go`, `Client`) -/

/-- Per-connection state of `websocket.Client`: the immutable
authenticated username, the mutable current room, and the outbound
`send` channel as a FIFO queue plus its open/closed flag. -/
structure Conn where
  username : String := ""
  currentRoomID : String := ""
  sendQueue : List Msg := []
  sendOpen : Bool := true
  deriving DecidableEq, Repr

/-- Capacity of the per-connection `send` channel (`make(chan *Message, 256)`). -/
def sendChannelCapacity : Nat := 256

/-- The hub's state: all live connections keyed by an identifier, the
`clients` set, the `rooms` map (roomID to member set), the store, and
the set of connections for which a slow-consumer unregister goroutine
has been spawned. -/
structure HubState where
  conns : List (Nat × Conn) := []
  clients : List Nat := []
  rooms : List (String × List Nat) := []
  store : Store := {}
  pendingUnreg : List Nat := []
  deriving DecidableEq, Repr

def initialHub : HubState := {}

def connUsername (s : HubState) (cid : Nat) : String :=
  ((s.conns.lookup cid).map Conn.username).getD ""

def connCurrentRoom (s : HubState) (cid : Nat) : String :=
  ((s.conns.lookup cid).map Conn.currentRoomID).getD ""

def connQueue (s : HubState) (cid : Nat) : Option (List Msg) :=
  (s.conns.lookup cid).map Conn.sendQueue

def updateConn (s : HubState) (cid : Nat) (f : Conn → Conn) : HubState :=
  match s.conns.lookup cid with
  | none => s
  | some c => { s with conns := assocSet s.conns cid (f c) }

/-- Non-blocking send `select { case c.send <- m: default: ... }`: on a
full (or closed) channel the message is dropped and an unregister
goroutine is spawned for the slow consumer. -/
def trySend (s : HubState) (cid : Nat) (m : Msg) : HubState :=
  match s.conns.lookup cid with
  | none => s
  | some c =>
    if c.sendOpen ∧ c.sendQueue.length < sendChannelCapacity then
      { s with conns := assocSet s.conns cid { c with sendQueue := c.sendQueue ++ [m] } }
    else
      { s with pendingUnreg := s.pendingUnreg ++ [cid] }

/-- Plain channel send `c.send <- m` (the hub's targeted sends): the
hub goroutine waits until the writer drains, so the message always
lands at the queue tail. -/
def blockingSend (s : HubState) (cid : Nat) (m : Msg) : HubState :=
  match s.conns.lookup cid with
  | none => s
  | some c =>
    { s with conns := assocSet s.conns cid { c with sendQueue := c.sendQueue ++ [m] } }

/-- Targeted error envelope `&Message{Type: ErrorMessageType, Content:
..., Timestamp: time.Now().UTC()}`. -/
def errMsg (content : String) (now : Nat) : Msg :=
  { type := ErrorMessageType, content := content, timestamp := now }

/-- `findClientByUsername`: linear scan of `h.clients` for the first
connection carrying the username. -/
def findClientByUsername (s : HubState) (username : String) : Option Nat :=
  s.clients.find? (fun cid => connUsername s cid == username)

/-- `broadcastToRoom`: snapshot the room member set, filter out the
originator of a `user_typing` envelope, then non-blocking-send to each
remaining member. -/
def broadcastToRoom (s : HubState) (m : Msg) : HubState :=
  if m.roomID = "" then s
  else
    match s.rooms.lookup m.roomID with
    | none => s
    | some roomClients =>
      let clientsToSend := roomClients.filter
        (fun c => !(m.type == UserTypingMessageType && connUsername s c == m.username))
      clientsToSend.foldl (fun st c => trySend st c m) s

/-- `broadcastSystemMessageToRoom`: wrap content in a `system = true`
envelope and fan it out. -/
def broadcastSystemMessageToRoom (s : HubState) (roomID content relevantUsername : String)
    (msgType : String) (now : Nat) : HubState :=
  if roomID = "" then s
  else broadcastToRoom s
    { type := msgType, content := content, username := relevantUsername,
      roomID := roomID, timestamp := now, system := true }

/-- `broadcastUserList`: read the room's user set from the store and fan
out a `user_list_update`; on a read error only log. -/
def broadcastUserList (s : HubState) (roomID : String) (now : Nat) : HubState :=
  if roomID = "" then s
  else
    match s.store.getActiveUsersInRoom roomID with
    | .error _ => s
    | .ok users =>
      broadcastToRoom s
        { type := UserListUpdateType, roomID := roomID, timestamp := now,
          system := true, data := MsgData.userList roomID users }

/-- `broadcastRoomStats`: read `GetRoomStats` and fan out a
`room_stats_update`; on a read error only log. -/
def broadcastRoomStats (s : HubState) (roomID : String) (now : Nat) : HubState :=
  if roomID = "" then s
  else
    match s.store.getRoomStats roomID with
    | .error _ => s
    | .ok stats =>
      broadcastToRoom s
        { type := RoomStatsUpdateType, roomID := roomID, timestamp := now,
          system := true, data := MsgData.roomStats roomID stats.1 stats.2 }

/-- `broadcastGlobalUserCount`: read `SCard global:users` and
non-blocking-send a `global_user_count_update` to every registered
connection. -/
def broadcastGlobalUserCount (s : HubState) (now : Nat) : HubState :=
  let m : Msg := { type := GlobalUserCountUpdateType, timestamp := now, system := true,
                   data := MsgData.globalCount s.store.getGlobalActiveUserCount }
  s.clients.foldl (fun st cid => trySend st cid m) s

/-- `handleClientJoinRoom`: reject an empty roomID with a targeted
error; otherwise add the member (creating the room lazily), set
`currentRoomID`, `SAdd` the username to the room's user set, send recent
history to the joiner when non-empty, then broadcast `user_joined`,
`user_list_update` and `room_stats_update` to the room. -/
def handleClientJoinRoom (s : HubState) (cid : Nat) (roomID : String) (now : Nat) : HubState :=
  if roomID = "" then
    blockingSend s cid (errMsg "Invalid RoomID. Cannot join." now)
  else
    let u := connUsername s cid
    let members := (s.rooms.lookup roomID).getD []
    let newMembers := if cid ∈ members then members else members ++ [cid]
    let s1 := { s with rooms := assocSet s.rooms roomID newMembers }
    let s2 := updateConn s1 cid (fun c => { c with currentRoomID := roomID })
    let s3 := { s2 with store := exceptStoreD (s2.store.addActiveUserToRoom roomID u 0) s2.store }
    let s4 :=
      match s3.store.getRecentMessages roomID maxRecentMessagesToSend with
      | .error _ => s3
      | .ok recentMsgJSONs =>
        if 0 < recentMsgJSONs.length then
          blockingSend s3 cid
            { type := RecentMessagesType, roomID := roomID, timestamp := now,
              system := true, data := MsgData.recentMessages roomID recentMsgJSONs }
        else s3
    let s5 := broadcastSystemMessageToRoom s4 roomID
      ("User " ++ u ++ " joined the room.") u UserJoinedMessageType now
    let s6 := broadcastUserList s5 roomID now
    broadcastRoomStats s6 roomID now

/-- `handleClientLeaveRoom`: remove the member from the hub map (deleting
the room entry when it empties); only when the member was actually
present, `SRem` the username from the store set and broadcast
`user_left`, `user_list_update` and `room_stats_update`; finally clear
`currentRoomID` unless this is a full disconnect. -/
def handleClientLeaveRoom (s : HubState) (cid : Nat) (roomID : String)
    (isDisconnect : Bool) (now : Nat) : HubState :=
  if roomID = "" then s
  else
    let u := connUsername s cid
    let removed :=
      match s.rooms.lookup roomID with
      | none => (s, false)
      | some roomClients =>
        if cid ∈ roomClients then
          let rest := roomClients.erase cid
          ({ s with rooms := if rest.isEmpty then assocRemove s.rooms roomID
                             else assocSet s.rooms roomID rest }, true)
        else (s, false)
    let s1 := removed.1
    let s2 :=
      if removed.2 then
        let st' := exceptStoreD (s1.store.removeActiveUserFromRoom roomID u) s1.store
        let s2a := { s1 with store := st' }
        let s2b := broadcastSystemMessageToRoom s2a roomID
          ("User " ++ u ++ " left the room.") u UserLeftMessageType now
        let s2c := broadcastUserList s2b roomID now
        broadcastRoomStats s2c roomID now
      else s1
    if isDisconnect then s2 else updateConn s2 cid (fun c => { c with currentRoomID := "" })

/-- `handleClientRegistration`: insert into `h.clients`, `SAdd` the
username to `global:users`, broadcast the global count to everyone, then
run the join routine when an initial room was requested. -/
def handleClientRegistration (s : HubState) (cid : Nat) (now : Nat) : HubState :=
  let s1 := { s with clients := if cid ∈ s.clients then s.clients else s.clients ++ [cid] }
  let u := connUsername s1 cid
  let s2 := { s1 with store := exceptStoreD (s1.store.addUserToGlobalSet u) s1.store }
  let s3 := broadcastGlobalUserCount s2 now
  let r := connCurrentRoom s3 cid
  if r ≠ "" then handleClientJoinRoom s3 cid r now else s3

/-- `handleClientUnregistration`: ignore unknown clients; otherwise
remove from `h.clients`, close the send channel, leave the current room
with `isDisconnect = true`, `SRem` from `global:users`, and broadcast
the new global count. -/
def handleClientUnregistration (s : HubState) (cid : Nat) (now : Nat) : HubState :=
  if cid ∈ s.clients then
    let s1 := { s with clients := s.clients.erase cid }
    let s2 := updateConn s1 cid (fun c => { c with sendOpen := false })
    let r := connCurrentRoom s2 cid
    let s3 := if r ≠ "" then handleClientLeaveRoom s2 cid r true now else s2
    let u := connUsername s3 cid
    let s4 := { s3 with store := exceptStoreD (s3.store.removeUserFromGlobalSet u) s3.store }
    broadcastGlobalUserCount s4 now
  else s

/-- Serialization stand-in for `json.Marshal` of a `websocket.Message`
(the hub stores the serialized envelope in the room history; no claim
inspects the encoding, only that a non-empty string is stored). -/
def serializeData : MsgData → String
  | MsgData.noData => ""
  | MsgData.roomStats r a m => "stats," ++ r ++ "," ++ toString a ++ "," ++ toString m
  | MsgData.userList r us => "users," ++ r ++ "," ++ String.intercalate ";" us
  | MsgData.recentMessages r ms => "recent," ++ r ++ "," ++ String.intercalate ";" ms
  | MsgData.globalCount c => "count," ++ toString c

def serializeMsg (m : Msg) : String :=
  "msg," ++ m.type ++ "," ++ m.content ++ "," ++ m.username ++ "," ++ m.roomID ++ ","
    ++ toString m.timestamp ++ "," ++ (if m.system then "true" else "false") ++ ","
    ++ serializeData m.data

/-- `handleIncomingMessage`: stamp the server timestamp, look up the
sending connection by username (discarding messages from unknown users
with a non-empty type), then dispatch on the type tag exactly as the Go
switch does.  `parseJoin` stands for `json.Unmarshal` of the
`join_room` content into `JoinRoomData` (`none` = unmarshal error). -/
def handleIncomingMessage (parseJoin : String → Option String)
    (s : HubState) (msg : Msg) (now : Nat) : HubState :=
  let m := { msg with timestamp := now }
  let client? := findClientByUsername s m.username
  if client?.isNone ∧ m.type ≠ "" then s
  else if m.type = TextMessageType then
    if m.roomID = "" ∨ m.username = "" then
      match client? with
      | some cid => blockingSend s cid
          (errMsg "Your message could not be sent: RoomID or Username was missing." now)
      | none => s
    else
      let m1 := { m with system := false }
      let messageJSON := serializeMsg m1
      let stAdd := exceptStoreD
        (s.store.addRecentMessage m1.roomID messageJSON maxRecentMessagesToStore 0) s.store
      let s1 := { s with store := stAdd }
      let stInc := exceptStoreD
        ((s1.store.incrementMessageCounter m1.roomID).map Prod.snd) s1.store
      let s2 := { s1 with store := stInc }
      let s3 := broadcastToRoom s2 m1
      broadcastRoomStats s3 m1.roomID now
  else if m.type = JoinRoomMessageType then
    match parseJoin m.content with
    | none =>
      match client? with
      | some cid => blockingSend s cid (errMsg "Invalid join room request format." now)
      | none => s
    | some joinRoomID =>
      match client? with
      | none => s
      | some cid =>
        if joinRoomID = "" then
          blockingSend s cid (errMsg "Cannot join an empty RoomID." now)
        else
          let cur := connCurrentRoom s cid
          let s1 := if cur ≠ "" ∧ cur ≠ joinRoomID
                    then handleClientLeaveRoom s cid cur false now else s
          handleClientJoinRoom s1 cid joinRoomID now
  else if m.type = LeaveRoomMessageType then
    match client? with
    | none => s
    | some cid =>
      let cur := connCurrentRoom s cid
      if cur ≠ "" then
        let s1 := handleClientLeaveRoom s cid cur false now
        updateConn s1 cid (fun c => { c with currentRoomID := "" })
      else s
  else if m.type = UserTypingMessageType then
    if m.roomID ≠ "" ∧ m.username ≠ "" then broadcastToRoom s m else s
  else if m.type = RequestStatsType then
    match client? with
    | none => s
    | some cid =>
      let targetRoomID := if m.roomID = "" then connCurrentRoom s cid else m.roomID
      if targetRoomID = "" then
        blockingSend s cid (errMsg "RoomID required for stats request." now)
      else
        match s.store.getRoomStats targetRoomID with
        | .error _ => blockingSend s cid
            { type := ErrorMessageType,
              content := "Failed to get room stats for " ++ targetRoomID,
              roomID := targetRoomID, timestamp := now }
        | .ok stats => blockingSend s cid
            { type := RoomStatsUpdateType, roomID := targetRoomID, timestamp := now,
              system := true,
              data := MsgData.roomStats targetRoomID stats.1 stats.2 }
  else
    match client? with
    | none => s
    | some cid =>
      blockingSend s cid (errMsg ("Unknown message type received: " ++ m.type) now)

/-- The per-frame body of `Client.ReadPump` after `json.Unmarshal`
succeeded: overwrite `username` with the authenticated identity, stamp
the server clock, and fill an empty `roomID` from `currentRoomID` for
the three types that implicitly target the current room. -/
def readPumpProcess (c : Conn) (m : Msg) (now : Nat) : Msg :=
  let m1 := { m with username := c.username, timestamp := now }
  if m1.roomID = "" ∧ (m1.type = TextMessageType ∨ m1.type = UserTypingMessageType
      ∨ m1.type = RequestStatsType)
  then { m1 with roomID := c.currentRoomID }
  else m1

/-! ## The hub's event loop as a transition system -/

/-- `NewClient`: fresh connection with an empty queue and an open
channel; the hub performs the actual join. -/
def newConn (username initialRoomID : String) : Conn :=
  { username := username, currentRoomID := initialRoomID }

/-- The membership-changing events the hub's `Run` loop serializes:
register and unregister events, and the two internal routines reachable
from message dispatch. -/
inductive HubOp where
  | register (cid : Nat) (username initialRoomID : String)
  | unregister (cid : Nat)
  | joinRoom (cid : Nat) (roomID : String)
  | leaveRoom (cid : Nat) (roomID : String) (isDisconnect : Bool)

/-- One step of the hub's event loop. -/
def hubStep (s : HubState) (op : HubOp) (now : Nat) : HubState :=
  match op with
  | HubOp.register cid u r0 =>
      handleClientRegistration { s with conns := assocSet s.conns cid (newConn u r0) } cid now
  | HubOp.unregister cid => handleClientUnregistration s cid now
  | HubOp.joinRoom cid r => handleClientJoinRoom s cid r now
  | HubOp.leaveRoom cid r d => handleClientLeaveRoom s cid r d now

/-- Hub states reachable from the empty hub by any event sequence. -/
inductive ReachableHub : HubState → Prop where
  | init : ReachableHub initialHub
  | step (s : HubState) (op : HubOp) (now : Nat) :
      ReachableHub s → ReachableHub (hubStep s op now)

/-! ## Frame lemmas: sends only touch queues and the pending set -/

theorem rooms_trySend (s : HubState) (cid : Nat) (m : Msg) :
    (trySend s cid m).rooms = s.rooms := by
  unfold trySend
  cases s.conns.lookup cid with
  | none => rfl
  | some c =>
    dsimp only
    split <;> rfl

theorem store_trySend (s : HubState) (cid : Nat) (m : Msg) :
    (trySend s cid m).store = s.store := by
  unfold trySend
  cases s.conns.lookup cid with
  | none => rfl
  | some c =>
    dsimp only
    split <;> rfl

theorem clients_trySend (s : HubState) (cid : Nat) (m : Msg) :
    (trySend s cid m).clients = s.clients := by
  unfold trySend
  cases s.conns.lookup cid with
  | none => rfl
  | some c =>
    dsimp only
    split <;> rfl

theorem connUsername_trySend (s : HubState) (cid' : Nat) (m : Msg) (cid : Nat) :
    connUsername (trySend s cid' m) cid = connUsername s cid := by
  unfold trySend
  cases hl : s.conns.lookup cid' with
  | none => rfl
  | some c =>
    dsimp only
    split
    · by_cases h : cid = cid'
      · subst h
        unfold connUsername
        rw [lookup_assocSet_self, hl]
        rfl
      · unfold connUsername
        rw [lookup_assocSet_ne _ _ _ _ h]
    · rfl

theorem connCurrentRoom_trySend (s : HubState) (cid' : Nat) (m : Msg) (cid : Nat) :
    connCurrentRoom (trySend s cid' m) cid = connCurrentRoom s cid := by
  unfold trySend
  cases hl : s.conns.lookup cid' with
  | none => rfl
  | some c =>
    dsimp only
    split
    · by_cases h : cid = cid'
      · subst h
        unfold connCurrentRoom
        rw [lookup_assocSet_self, hl]
        rfl
      · unfold connCurrentRoom
        rw [lookup_assocSet_ne _ _ _ _ h]
    · rfl

theorem connQueue_trySend_other (s : HubState) (cid cid' : Nat) (m : Msg) (h : cid ≠ cid') :
    connQueue (trySend s cid' m) cid = connQueue s cid := by
  unfold trySend
  cases hl : s.conns.lookup cid' with
  | none => rfl
  | some c =>
    dsimp only
    split
    · unfold connQueue
      rw [lookup_assocSet_ne _ _ _ _ h]
    · rfl

theorem rooms_foldl_trySend (l : List Nat) (s : HubState) (m : Msg) :
    (l.foldl (fun st c => trySend st c m) s).rooms = s.rooms := by
  induction l generalizing s with
  | nil => rfl
  | cons a t ih => rw [List.foldl_cons, ih, rooms_trySend]

theorem store_foldl_trySend (l : List Nat) (s : HubState) (m : Msg) :
    (l.foldl (fun st c => trySend st c m) s).store = s.store := by
  induction l generalizing s with
  | nil => rfl
  | cons a t ih => rw [List.foldl_cons, ih, store_trySend]

theorem clients_foldl_trySend (l : List Nat) (s : HubState) (m : Msg) :
    (l.foldl (fun st c => trySend st c m) s).clients = s.clients := by
  induction l generalizing s with
  | nil => rfl
  | cons a t ih => rw [List.foldl_cons, ih, clients_trySend]

theorem connUsername_foldl_trySend (l : List Nat) (s : HubState) (m : Msg) (cid : Nat) :
    connUsername (l.foldl (fun st c => trySend st c m) s) cid = connUsername s cid := by
  induction l generalizing s with
  | nil => rfl
  | cons a t ih => rw [List.foldl_cons, ih, connUsername_trySend]

theorem connQueue_foldl_trySend (l : List Nat) (s : HubState) (m : Msg) (cid : Nat)
    (h : ∀ x ∈ l, x ≠ cid) :
    connQueue (l.foldl (fun st c => trySend st c m) s) cid = connQueue s cid := by
  induction l generalizing s with
  | nil => rfl
  | cons a t ih =>
    rw [List.foldl_cons, ih _ (fun x hx => h x (List.mem_cons_of_mem a hx))]
    exact (connQueue_trySend_other s cid a m (Ne.symm (h a (List.mem_cons_self a t)))).symm ▸ rfl

theorem rooms_blockingSend (s : HubState) (cid : Nat) (m : Msg) :
    (blockingSend s cid m).rooms = s.rooms := by
  unfold blockingSend
  cases s.conns.lookup cid <;> rfl

theorem store_blockingSend (s : HubState) (cid : Nat) (m : Msg) :
    (blockingSend s cid m).store = s.store := by
  unfold blockingSend
  cases s.conns.lookup cid <;> rfl

theorem clients_blockingSend (s : HubState) (cid : Nat) (m : Msg) :
    (blockingSend s cid m).clients = s.clients := by
  unfold blockingSend
  cases s.conns.lookup cid <;> rfl

theorem connUsername_blockingSend (s : HubState) (cid' : Nat) (m : Msg) (cid : Nat) :
    connUsername (blockingSend s cid' m) cid = connUsername s cid := by
  unfold blockingSend
  cases hl : s.conns.lookup cid' with
  | none => rfl
  | some c =>
    by_cases h : cid = cid'
    · subst h
      unfold connUsername
      rw [lookup_assocSet_self, hl]
      rfl
    · unfold connUsername
      rw [lookup_assocSet_ne _ _ _ _ h]

theorem rooms_updateConn (s : HubState) (cid : Nat) (f : Conn → Conn) :
    (updateConn s cid f).rooms = s.rooms := by
  unfold updateConn
  cases s.conns.lookup cid <;> rfl

theorem store_updateConn (s : HubState) (cid : Nat) (f : Conn → Conn) :
    (updateConn s cid f).store = s.store := by
  unfold updateConn
  cases s.conns.lookup cid <;> rfl

theorem clients_updateConn (s : HubState) (cid : Nat) (f : Conn → Conn) :
    (updateConn s cid f).clients = s.clients := by
  unfold updateConn
  cases s.conns.lookup cid <;> rfl

theorem connUsername_updateConn (s : HubState) (cid' cid : Nat) (f : Conn → Conn)
    (hf : ∀ c, (f c).username = c.username) :
    connUsername (updateConn s cid' f) cid = connUsername s cid := by
  unfold updateConn
  cases hl : s.conns.lookup cid' with
  | none => rfl
  | some c =>
    by_cases h : cid = cid'
    · subst h
      unfold connUsername
      rw [lookup_assocSet_self, hl]
      simp [hf]
    · unfold connUsername
      rw [lookup_assocSet_ne _ _ _ _ h]

theorem rooms_broadcastToRoom (s : HubState) (m : Msg) :
    (broadcastToRoom s m).rooms = s.rooms := by
  unfold broadcastToRoom
  split
  · rfl
  · cases s.rooms.lookup m.roomID with
    | none => rfl
    | some rc => exact rooms_foldl_trySend _ _ _

theorem store_broadcastToRoom (s : HubState) (m : Msg) :
    (broadcastToRoom s m).store = s.store := by
  unfold broadcastToRoom
  split
  · rfl
  · cases s.rooms.lookup m.roomID with
    | none => rfl
    | some rc => exact store_foldl_trySend _ _ _

theorem clients_broadcastToRoom (s : HubState) (m : Msg) :
    (broadcastToRoom s m).clients = s.clients := by
  unfold broadcastToRoom
  split
  · rfl
  · cases s.rooms.lookup m.roomID with
    | none => rfl
    | some rc => exact clients_foldl_trySend _ _ _

theorem connUsername_broadcastToRoom (s : HubState) (m : Msg) (cid : Nat) :
    connUsername (broadcastToRoom s m) cid = connUsername s cid := by
  unfold broadcastToRoom
  split
  · rfl
  · cases s.rooms.lookup m.roomID with
    | none => rfl
    | some rc => exact connUsername_foldl_trySend _ _ _ _

theorem rooms_broadcastSystemMessageToRoom (s : HubState) (r c u ty : String) (now : Nat) :
    (broadcastSystemMessageToRoom s r c u ty now).rooms = s.rooms := by
  unfold broadcastSystemMessageToRoom
  split
  · rfl
  · exact rooms_broadcastToRoom _ _

theorem store_broadcastSystemMessageToRoom (s : HubState) (r c u ty : String) (now : Nat) :
    (broadcastSystemMessageToRoom s r c u ty now).store = s.store := by
  unfold broadcastSystemMessageToRoom
  split
  · rfl
  · exact store_broadcastToRoom _ _

theorem connUsername_broadcastSystemMessageToRoom (s : HubState) (r c u ty : String)
    (now : Nat) (cid : Nat) :
    connUsername (broadcastSystemMessageToRoom s r c u ty now) cid = connUsername s cid := by
  unfold broadcastSystemMessageToRoom
  split
  · rfl
  · exact connUsername_broadcastToRoom _ _ _

theorem rooms_broadcastUserList (s : HubState) (r : String) (now : Nat) :
    (broadcastUserList s r now).rooms = s.rooms := by
  unfold broadcastUserList
  split
  · rfl
  · cases s.store.getActiveUsersInRoom r with
    | error e => rfl
    | ok us => exact rooms_broadcastToRoom _ _

theorem store_broadcastUserList (s : HubState) (r : String) (now : Nat) :
    (broadcastUserList s r now).store = s.store := by
  unfold broadcastUserList
  split
  · rfl
  · cases s.store.getActiveUsersInRoom r with
    | error e => rfl
    | ok us => exact store_broadcastToRoom _ _

theorem connUsername_broadcastUserList (s : HubState) (r : String) (now : Nat) (cid : Nat) :
    connUsername (broadcastUserList s r now) cid = connUsername s cid := by
  unfold broadcastUserList
  split
  · rfl
  · cases s.store.getActiveUsersInRoom r with
    | error e => rfl
    | ok us => exact connUsername_broadcastToRoom _ _ _

theorem rooms_broadcastRoomStats (s : HubState) (r : String) (now : Nat) :
    (broadcastRoomStats s r now).rooms = s.rooms := by
  unfold broadcastRoomStats
  split
  · rfl
  · cases s.store.getRoomStats r with
    | error e => rfl
    | ok st => exact rooms_broadcastToRoom _ _

theorem store_broadcastRoomStats (s : HubState) (r : String) (now : Nat) :
    (broadcastRoomStats s r now).store = s.store := by
  unfold broadcastRoomStats
  split
  · rfl
  · cases s.store.getRoomStats r with
    | error e => rfl
    | ok st => exact store_broadcastToRoom _ _

theorem connUsername_broadcastRoomStats (s : HubState) (r : String) (now : Nat) (cid : Nat) :
    connUsername (broadcastRoomStats s r now) cid = connUsername s cid := by
  unfold broadcastRoomStats
  split
  · rfl
  · cases s.store.getRoomStats r with
    | error e => rfl
    | ok st => exact connUsername_broadcastToRoom _ _ _

theorem rooms_broadcastGlobalUserCount (s : HubState) (now : Nat) :
    (broadcastGlobalUserCount s now).rooms = s.rooms := by
  unfold broadcastGlobalUserCount
  exact rooms_foldl_trySend _ _ _

/-! ## Characterizations of the join and leave routines -/

theorem rooms_handleClientJoinRoom (s : HubState) (cid : Nat) (r : String) (now : Nat)
    (hr : r ≠ "") :
    (handleClientJoinRoom s cid r now).rooms =
      assocSet s.rooms r
        (if cid ∈ (s.rooms.lookup r).getD [] then (s.rooms.lookup r).getD []
         else (s.rooms.lookup r).getD [] ++ [cid]) := by
  unfold handleClientJoinRoom
  rw [if_neg hr]
  dsimp only
  rw [rooms_broadcastRoomStats, rooms_broadcastUserList, rooms_broadcastSystemMessageToRoom]
  split
  · exact rooms_updateConn _ _ _
  · split
    · rw [rooms_blockingSend]
      exact rooms_updateConn _ _ _
    · exact rooms_updateConn _ _ _

theorem roomUsers_addActive_exceptD (st : Store) (r u : String) (ttl : Int)
    (hr : r ≠ "") (hu : u ≠ "") :
    (exceptStoreD (st.addActiveUserToRoom r u ttl) st).roomUsers =
      assocSet st.roomUsers r
        (if u ∈ (st.roomUsers.lookup r).getD [] then (st.roomUsers.lookup r).getD []
         else u :: (st.roomUsers.lookup r).getD []) := by
  unfold Store.addActiveUserToRoom
  rw [if_neg (not_or.mpr ⟨hr, hu⟩)]
  rfl

theorem roomUsers_handleClientJoinRoom (s : HubState) (cid : Nat) (r : String) (now : Nat)
    (hr : r ≠ "") (hu : connUsername s cid ≠ "") :
    (handleClientJoinRoom s cid r now).store.roomUsers =
      assocSet s.store.roomUsers r
        (if connUsername s cid ∈ (s.store.roomUsers.lookup r).getD []
         then (s.store.roomUsers.lookup r).getD []
         else connUsername s cid :: (s.store.roomUsers.lookup r).getD []) := by
  unfold handleClientJoinRoom
  rw [if_neg hr]
  dsimp only
  rw [store_broadcastRoomStats, store_broadcastUserList, store_broadcastSystemMessageToRoom]
  split
  · rw [store_updateConn, roomUsers_addActive_exceptD _ _ _ _ hr hu]
  · split
    · rw [store_blockingSend, store_updateConn, roomUsers_addActive_exceptD _ _ _ _ hr hu]
    · rw [store_updateConn, roomUsers_addActive_exceptD _ _ _ _ hr hu]

theorem connUsername_handleClientJoinRoom (s : HubState) (cid : Nat) (r : String)
    (now : Nat) (j : Nat) :
    connUsername (handleClientJoinRoom s cid r now) j = connUsername s j := by
  unfold handleClientJoinRoom
  by_cases hr : r = ""
  · rw [if_pos hr]
    exact connUsername_blockingSend _ _ _ _
  · rw [if_neg hr]
    dsimp only
    rw [connUsername_broadcastRoomStats, connUsername_broadcastUserList,
        connUsername_broadcastSystemMessageToRoom]
    split
    · exact connUsername_updateConn _ _ _ _ (fun c => rfl)
    · split
      · rw [connUsername_blockingSend]
        exact connUsername_updateConn _ _ _ _ (fun c => rfl)
      · exact connUsername_updateConn _ _ _ _ (fun c => rfl)

/-! ## The nonempty-room-map invariant -/

/-- Every room present in the hub's map has at least one member. -/
def RoomsNonempty (s : HubState) : Prop := ∀ r, s.rooms.lookup r ≠ some []

theorem roomsNonempty_join (s : HubState) (cid : Nat) (r : String) (now : Nat)
    (h : RoomsNonempty s) : RoomsNonempty (handleClientJoinRoom s cid r now) := by
  by_cases hr : r = ""
  · intro r'
    unfold handleClientJoinRoom
    rw [if_pos hr, rooms_blockingSend]
    exact h r'
  · intro r'
    rw [rooms_handleClientJoinRoom s cid r now hr]
    by_cases he : r' = r
    · subst he
      rw [lookup_assocSet_self]
      intro hcontra
      have hval := Option.some.inj hcontra
      split at hval
      · exact absurd (hval ▸ (by assumption : cid ∈ (s.rooms.lookup r').getD []))
          (List.not_mem_nil cid)
      · exact absurd hval (by simp)
    · rw [lookup_assocSet_ne _ _ _ _ he]
      exact h r'

theorem roomsNonempty_leave (s : HubState) (cid : Nat) (r : String) (d : Bool) (now : Nat)
    (h : RoomsNonempty s) : RoomsNonempty (handleClientLeaveRoom s cid r d now) := by
  unfold handleClientLeaveRoom
  by_cases hr : r = ""
  · rw [if_pos hr]
    exact h
  · rw [if_neg hr]
    dsimp only
    cases hl : s.rooms.lookup r with
    | none =>
      intro r'
      split
      · exact h r'
      · rw [rooms_updateConn]
        exact h r'
    | some rc =>
      dsimp only
      by_cases hm : cid ∈ rc
      · rw [if_pos hm]
        dsimp only
        intro r'
        split
        · rw [if_pos rfl, rooms_broadcastRoomStats, rooms_broadcastUserList,
              rooms_broadcastSystemMessageToRoom]
          by_cases hempty : (rc.erase cid).isEmpty
          · rw [if_pos hempty]
            by_cases he : r' = r
            · subst he
              rw [lookup_assocRemove_self]
              exact Option.noConfusion
            · rw [lookup_assocRemove_ne _ _ _ he]
              exact h r'
          · rw [if_neg hempty]
            by_cases he : r' = r
            · subst he
              rw [lookup_assocSet_self]
              intro hcontra
              exact hempty (by rw [Option.some.inj hcontra]; rfl)
            · rw [lookup_assocSet_ne _ _ _ _ he]
              exact h r'
        · rw [rooms_updateConn, if_pos rfl, rooms_broadcastRoomStats, rooms_broadcastUserList,
              rooms_broadcastSystemMessageToRoom]
          by_cases hempty : (rc.erase cid).isEmpty
          · rw [if_pos hempty]
            by_cases he : r' = r
            · subst he
              rw [lookup_assocRemove_self]
              exact Option.noConfusion
            · rw [lookup_assocRemove_ne _ _ _ he]
              exact h r'
          · rw [if_neg hempty]
            by_cases he : r' = r
            · subst he
              rw [lookup_assocSet_self]
              intro hcontra
              exact hempty (by rw [Option.some.inj hcontra]; rfl)
            · rw [lookup_assocSet_ne _ _ _ _ he]
              exact h r'
      · rw [if_neg hm]
        dsimp only
        intro r'
        split
        · exact h r'
        · rw [rooms_updateConn]
          exact h r'

theorem roomsNonempty_ite_join (s : HubState) (cid : Nat) (r : String) (now : Nat)
    (h : RoomsNonempty s) :
    RoomsNonempty (if r ≠ "" then handleClientJoinRoom s cid r now else s) := by
  by_cases hc : r ≠ ""
  · rw [if_pos hc]
    exact roomsNonempty_join _ _ _ _ h
  · rw [if_neg hc]
    exact h

theorem roomsNonempty_register (s : HubState) (cid : Nat) (now : Nat)
    (h : RoomsNonempty s) : RoomsNonempty (handleClientRegistration s cid now) := by
  unfold handleClientRegistration
  dsimp only
  apply roomsNonempty_ite_join
  intro r'
  rw [rooms_broadcastGlobalUserCount]
  exact h r'

theorem roomsNonempty_unregister (s : HubState) (cid : Nat) (now : Nat)
    (h : RoomsNonempty s) : RoomsNonempty (handleClientUnregistration s cid now) := by
  unfold handleClientUnregistration
  split
  · dsimp only
    have hs2 : RoomsNonempty (updateConn { s with clients := s.clients.erase cid } cid
        (fun c => { c with sendOpen := false })) := by
      intro r'
      rw [rooms_updateConn]
      exact h r'
    intro r'
    rw [rooms_broadcastGlobalUserCount]
    split
    · exact roomsNonempty_leave _ _ _ _ _ hs2 r'
    · exact hs2 r'
  · exact h

theorem rooms_handleClientLeaveRoom_mem (s : HubState) (cid : Nat) (r : String)
    (d : Bool) (now : Nat) (hr : r ≠ "") (rc : List Nat)
    (hl : s.rooms.lookup r = some rc) (hm : cid ∈ rc) :
    (handleClientLeaveRoom s cid r d now).rooms =
      if (rc.erase cid).isEmpty then assocRemove s.rooms r
      else assocSet s.rooms r (rc.erase cid) := by
  unfold handleClientLeaveRoom
  rw [if_neg hr]
  dsimp only
  rw [hl]
  dsimp only
  rw [if_pos hm]
  dsimp only
  rw [if_pos rfl]
  split
  · rw [rooms_broadcastRoomStats, rooms_broadcastUserList, rooms_broadcastSystemMessageToRoom]
  · rw [rooms_updateConn, rooms_broadcastRoomStats, rooms_broadcastUserList,
        rooms_broadcastSystemMessageToRoom]

theorem store_handleClientLeaveRoom_mem (s : HubState) (cid : Nat) (r : String)
    (d : Bool) (now : Nat) (hr : r ≠ "") (rc : List Nat)
    (hl : s.rooms.lookup r = some rc) (hm : cid ∈ rc) :
    (handleClientLeaveRoom s cid r d now).store =
      exceptStoreD (s.store.removeActiveUserFromRoom r (connUsername s cid)) s.store := by
  unfold handleClientLeaveRoom
  rw [if_neg hr]
  dsimp only
  rw [hl]
  dsimp only
  rw [if_pos hm]
  dsimp only
  rw [if_pos rfl]
  split
  · rw [store_broadcastRoomStats, store_broadcastUserList, store_broadcastSystemMessageToRoom]
  · rw [store_updateConn, store_broadcastRoomStats, store_broadcastUserList,
        store_broadcastSystemMessageToRoom]

theorem roomUsers_removeActive_exceptD (st : Store) (r u : String) (l : List String)
    (hr : r ≠ "") (hu : u ≠ "") (hl : st.roomUsers.lookup r = some (u :: l)) :
    (exceptStoreD (st.removeActiveUserFromRoom r u) st).roomUsers =
      if l.isEmpty then assocRemove st.roomUsers r else assocSet st.roomUsers r l := by
  unfold Store.removeActiveUserFromRoom
  rw [if_neg (not_or.mpr ⟨hr, hu⟩), hl]
  dsimp only
  rw [List.erase_cons_head]
  split
  · rfl
  · rfl

/-! ## Concrete fixtures -/

/-- Store of scenario 1 of the spec: room `r1` holds the head-newest
history `["m3","m2","m1"]` and counter 3. -/
def exStore1 : Store := { roomMessages := [("r1", ["m3", "m2", "m1"])], roomMsgCount := [("r1", 3)] }

/-- Alice's connection as `NewClient` builds it (initial room `r1`). -/
def exConnAlice : Conn := { username := "alice", currentRoomID := "r1" }

/-- Hub state right after the handshake hands alice's connection over,
before the hub processes the register event. -/
def exHub1 : HubState := { conns := [(0, exConnAlice)], store := exStore1 }

/-- The hub state reached by one register event for alice on the empty
hub whose store already holds the `r1` history. -/
def exReached : HubState := hubStep { store := exStore1 } (HubOp.register 0 "alice" "r1") 1

/-- Two-member room fixture: alice and bob both registered and in `r1`. -/
def exHubAB : HubState :=
  { conns := [(0, { username := "alice", currentRoomID := "r1" }),
              (1, { username := "bob", currentRoomID := "r1" })],
    clients := [0, 1], rooms := [("r1", [0, 1])],
    store := { roomUsers := [("r1", ["alice", "bob"])], globalUsers := ["alice", "bob"] } }

/-- A concrete stand-in for `json.Unmarshal` of `JoinRoomData` used by
witnesses: the content string is taken as the room id verbatim. -/
def parseJoinId : String → Option String := fun s => some s

/-! ## C3: the reader overwrites identity fields authoritatively -/

/-- C3: for every frame the reader forwards, `username` is the
connection's authenticated username and `timestamp` is server-assigned;
two frames that differ only in their client-supplied `username` and
`timestamp` fields are forwarded as the same envelope. -/
theorem readPump_identity_authoritative (c : Conn) (m1 m2 : Msg) (now : Nat)
    (htype : m1.type = m2.type) (hcontent : m1.content = m2.content)
    (hroom : m1.roomID = m2.roomID) (hsystem : m1.system = m2.system)
    (hdata : m1.data = m2.data) :
    (readPumpProcess c m1 now).username = c.username ∧
    (readPumpProcess c m1 now).timestamp = now ∧
    readPumpProcess c m1 now = readPumpProcess c m2 now := by
  cases m1 with
  | mk t1 co1 u1 r1 ts1 sy1 d1 =>
    cases m2 with
    | mk t2 co2 u2 r2 ts2 sy2 d2 =>
      dsimp only at htype hcontent hroom hsystem hdata
      subst htype
      subst hcontent
      subst hroom
      subst hsystem
      subst hdata
      unfold readPumpProcess
      dsimp only
      refine ⟨?_, ?_, rfl⟩
      · split <;> rfl
      · split <;> rfl

/-- A frame whose sender spoofed `username` and `timestamp`. -/
def exSpoofA : Msg := { type := "text_message", content := "hi", username := "mallory", timestamp := 99 }

/-- The same frame with a different spoofed identity. -/
def exSpoofB : Msg := { type := "text_message", content := "hi", username := "bob", timestamp := 3 }

/-- Witness for C3 at a concrete spoofing attempt. -/
theorem readPump_identity_authoritative_witness :
    (readPumpProcess exConnAlice exSpoofA 5).username = "alice" ∧
    (readPumpProcess exConnAlice exSpoofA 5).timestamp = 5 ∧
    readPumpProcess exConnAlice exSpoofA 5 = readPumpProcess exConnAlice exSpoofB 5 :=
  readPump_identity_authoritative exConnAlice exSpoofA exSpoofB 5 rfl rfl rfl rfl rfl

/-! ## C5: empty roomID is filled only for current-room types -/

/-- C5: an empty `roomID` is replaced by the connection's current room
exactly for `text_message`, `user_typing` and `request_room_stats`; for
`join_room` and every other type it is left unchanged. -/
theorem readPump_roomID_fill (c : Conn) (m : Msg) (now : Nat) (h : m.roomID = "") :
    ((m.type = TextMessageType ∨ m.type = UserTypingMessageType ∨ m.type = RequestStatsType) →
      (readPumpProcess c m now).roomID = c.currentRoomID) ∧
    (¬(m.type = TextMessageType ∨ m.type = UserTypingMessageType ∨ m.type = RequestStatsType) →
      (readPumpProcess c m now).roomID = m.roomID) := by
  unfold readPumpProcess
  constructor
  · intro ht
    rw [if_pos ⟨h, ht⟩]
  · intro ht
    rw [if_neg (fun hc => ht hc.2)]

/-- Witness for C5: a `join_room` frame keeps its empty roomID while a
`text_message` frame gets the current room. -/
theorem readPump_roomID_fill_witness :
    (readPumpProcess exConnAlice { type := "text_message", content := "hi" } 5).roomID = "r1" ∧
    (readPumpProcess exConnAlice { type := "join_room", content := "r2" } 5).roomID = "" :=
  ⟨(readPump_roomID_fill exConnAlice { type := "text_message", content := "hi" } 5 rfl).1
      (Or.inl rfl),
   (readPump_roomID_fill exConnAlice { type := "join_room", content := "r2" } 5 rfl).2
      (by decide)⟩

/-! ## C10: messages from unknown usernames are discarded whole -/

/-- C10: an inbound message with a non-empty type whose username matches
no registered connection leaves the hub state completely unchanged: no
store access, no enqueue, no map mutation. -/
theorem unknown_user_discarded (parseJoin : String → Option String) (s : HubState)
    (m : Msg) (now : Nat)
    (hfind : findClientByUsername s m.username = none) (htype : m.type ≠ "") :
    handleIncomingMessage parseJoin s m now = s := by
  unfold handleIncomingMessage
  dsimp only
  rw [hfind]
  rw [if_pos ⟨rfl, htype⟩]

/-- Witness for C10: a text message from an unknown sender on a live hub. -/
theorem unknown_user_discarded_witness :
    handleIncomingMessage parseJoinId exHubAB
      { type := "text_message", content := "hi", username := "mallory", roomID := "r1" } 5 =
      exHubAB :=
  unknown_user_discarded parseJoinId exHubAB _ 5 (by decide) (by decide)

/-! ## C6: AddRecentMessage is an atomic prepend-trim-expire -/

/-- C6: with valid arguments and a positive cap, `AddRecentMessage`
succeeds as a unit (the `Except` value is the whole transaction), the
new message sits at the head, the list is trimmed to at most
`maxMessages` entries, and a non-positive TTL falls back to the 24-hour
default. -/
theorem addRecentMessage_atomic_spec (st : Store) (roomID messageJSON : String)
    (maxMessages messageTTL : Int)
    (h1 : roomID ≠ "") (h2 : messageJSON ≠ "") (h3 : 0 < maxMessages) :
    ∃ st', st.addRecentMessage roomID messageJSON maxMessages messageTTL = Except.ok st' ∧
      ((st'.roomMessages.lookup roomID).getD []).head? = some messageJSON ∧
      ((st'.roomMessages.lookup roomID).getD []).length ≤ maxMessages.toNat ∧
      (messageTTL ≤ 0 → st'.roomMsgTTL.lookup roomID = some defaultRecentMessagesListTTL) ∧
      (0 < messageTTL → st'.roomMsgTTL.lookup roomID = some messageTTL) := by
  unfold Store.addRecentMessage
  rw [if_neg h1, if_neg h2]
  dsimp only
  rw [if_pos h3]
  refine ⟨_, rfl, ?_, ?_, ?_, ?_⟩
  · rw [lookup_assocSet_self]
    obtain ⟨n, hn⟩ : ∃ n, maxMessages.toNat = n + 1 := ⟨maxMessages.toNat - 1, by omega⟩
    rw [hn]
    rfl
  · rw [lookup_assocSet_self]
    rw [Option.getD_some, List.length_take]
    exact min_le_left _ _
  · intro httl
    rw [lookup_assocSet_self, if_neg (not_lt.mpr httl)]
  · intro httl
    rw [lookup_assocSet_self, if_pos httl]

/-- Witness for C6: prepend `"m4"` onto the three-element `r1` history
with cap 3 and default TTL. -/
theorem addRecentMessage_atomic_spec_witness :
    ∃ st', exStore1.addRecentMessage "r1" "m4" 3 0 = Except.ok st' ∧
      ((st'.roomMessages.lookup "r1").getD []).head? = some "m4" ∧
      ((st'.roomMessages.lookup "r1").getD []).length ≤ (3 : Int).toNat ∧
      ((0 : Int) ≤ 0 → st'.roomMsgTTL.lookup "r1" = some defaultRecentMessagesListTTL) ∧
      ((0 : Int) < 0 → st'.roomMsgTTL.lookup "r1" = some 0) :=
  addRecentMessage_atomic_spec exStore1 "r1" "m4" 3 0 (by decide) (by decide) (by decide)

/-! ## C7: GetRecentMessages reads a bounded newest-first prefix -/

/-- C7: `GetRecentMessages` returns a prefix of the head-newest list of
at most `count` entries, yields the empty sequence (not an error) for a
missing key, treats `count <= 0` as 10, and with the hub's `N_send = 20`
the `recent_messages` payload sent on join has at most 20 entries, newest
first. -/
theorem getRecentMessages_spec (st : Store) (roomID : String) (count : Int)
    (h : roomID ≠ "") :
    (∃ l, st.getRecentMessages roomID count = Except.ok l ∧
       l <+: (st.roomMessages.lookup roomID).getD [] ∧
       (0 < count → l.length ≤ count.toNat)) ∧
    (st.roomMessages.lookup roomID = none →
       st.getRecentMessages roomID count = Except.ok []) ∧
    (count ≤ 0 → st.getRecentMessages roomID count = st.getRecentMessages roomID 10) ∧
    (∃ l, st.getRecentMessages roomID maxRecentMessagesToSend = Except.ok l ∧
       l.length ≤ 20 ∧ l <+: (st.roomMessages.lookup roomID).getD []) := by
  refine ⟨?_, ?_, ?_, ?_⟩
  · unfold Store.getRecentMessages
    rw [if_neg h]
    refine ⟨_, rfl, List.take_prefix _ _, ?_⟩
    intro hc
    rw [if_neg (not_le.mpr hc), List.length_take]
    exact min_le_left _ _
  · intro hnone
    unfold Store.getRecentMessages
    rw [if_neg h, hnone]
    simp only [Option.getD_none, List.take_nil]
  · intro hc
    simp [Store.getRecentMessages, h, hc]
  · unfold Store.getRecentMessages
    rw [if_neg h]
    refine ⟨_, rfl, ?_, List.take_prefix _ _⟩
    rw [show (if maxRecentMessagesToSend ≤ 0 then (10 : Int)
          else maxRecentMessagesToSend).toNat = 20 from by decide]
    rw [List.length_take]
    exact min_le_left _ _

/-- Witness for C7 on the concrete `r1` store. -/
theorem getRecentMessages_spec_witness :
    exStore1.getRecentMessages "r1" 2 = Except.ok ["m3", "m2"] ∧
    exStore1.getRecentMessages "r1" (-1) = exStore1.getRecentMessages "r1" 10 :=
  ⟨rfl, (getRecentMessages_spec exStore1 "r1" (-1) (by decide)).2.2.1 (by decide)⟩

/-! ## C9: rooms present in the hub map always have members -/

/-- C9: in every state reachable by register, unregister, join and leave
events, no room id is mapped to an empty member set: the entry is deleted
in the same step that removes the last member. -/
theorem reachable_rooms_nonempty (s : HubState) (hs : ReachableHub s) (r : String) :
    s.rooms.lookup r ≠ some [] := by
  have hinv : RoomsNonempty s := by
    induction hs with
    | init =>
      intro r'
      simp [initialHub, List.lookup]
    | step s' op now hs ih =>
      cases op with
      | register cid u r0 => exact roomsNonempty_register _ _ _ (fun r' => ih r')
      | unregister cid => exact roomsNonempty_unregister _ _ _ ih
      | joinRoom cid rr => exact roomsNonempty_join _ _ _ _ ih
      | leaveRoom cid rr dd => exact roomsNonempty_leave _ _ _ _ _ ih
  exact hinv r

/-- Witness for C9 at the state reached by one registration. -/
theorem reachable_rooms_nonempty_witness :
    (hubStep initialHub (HubOp.register 0 "alice" "r1") 1).rooms.lookup "r1" ≠ some [] :=
  reachable_rooms_nonempty _
    (ReachableHub.step initialHub (HubOp.register 0 "alice" "r1") 1 ReachableHub.init) "r1"

/-! ## C4: typing fan-out never reaches the originator -/

/-- C4: a `user_typing` envelope fanned out by `broadcastToRoom` is never
enqueued on the outbound queue of the originating connection, in any hub
state and for any room membership. -/
theorem typing_fanout_skips_originator (s : HubState) (m : Msg) (cid : Nat)
    (htype : m.type = UserTypingMessageType) (horig : connUsername s cid = m.username) :
    connQueue (broadcastToRoom s m) cid = connQueue s cid := by
  unfold broadcastToRoom
  split
  · rfl
  · cases hl : s.rooms.lookup m.roomID with
    | none => rfl
    | some rc =>
      dsimp only
      apply connQueue_foldl_trySend
      intro x hx
      rw [List.mem_filter] at hx
      intro hxc
      subst hxc
      simp [htype, horig] at hx

/-- Witness for C4: alice types in the two-member room; her queue is
untouched. -/
theorem typing_fanout_skips_originator_witness :
    connQueue (broadcastToRoom exHubAB
      { type := "user_typing", content := "start", username := "alice", roomID := "r1" }) 0 =
      connQueue exHubAB 0 :=
  typing_fanout_skips_originator exHubAB
    { type := "user_typing", content := "start", username := "alice", roomID := "r1" } 0
    rfl (by decide)

/-! ## C1: dispatch of messages with an empty effective room id -/

/-- C1 (amended): with a registered sender, an empty effective roomID on
`text_message`, `request_room_stats` and `join_room` yields exactly a
targeted `error_message` to the sender and no other state change, while
an empty roomID on `user_typing` is silently discarded with no state
change and no error. -/
theorem hub_empty_room_dispatch (parseJoin : String → Option String) (s : HubState)
    (m : Msg) (now : Nat) (cid : Nat)
    (hfind : findClientByUsername s m.username = some cid) :
    (m.type = TextMessageType → m.roomID = "" →
      handleIncomingMessage parseJoin s m now = blockingSend s cid
        (errMsg "Your message could not be sent: RoomID or Username was missing." now)) ∧
    (m.type = RequestStatsType → m.roomID = "" → connCurrentRoom s cid = "" →
      handleIncomingMessage parseJoin s m now = blockingSend s cid
        (errMsg "RoomID required for stats request." now)) ∧
    (m.type = JoinRoomMessageType → parseJoin m.content = some "" →
      handleIncomingMessage parseJoin s m now = blockingSend s cid
        (errMsg "Cannot join an empty RoomID." now)) ∧
    (m.type = UserTypingMessageType → m.roomID = "" →
      handleIncomingMessage parseJoin s m now = s) := by
  refine ⟨?_, ?_, ?_, ?_⟩
  · intro ht hr
    simp [handleIncomingMessage, hfind, ht, hr, TextMessageType]
  · intro ht hr hcur
    simp [handleIncomingMessage, hfind, ht, hr, hcur, TextMessageType, JoinRoomMessageType,
      LeaveRoomMessageType, UserTypingMessageType, RequestStatsType]
  · intro ht hp
    simp [handleIncomingMessage, hfind, ht, hp, TextMessageType, JoinRoomMessageType]
  · intro ht hr
    simp [handleIncomingMessage, hfind, ht, hr, TextMessageType, JoinRoomMessageType,
      LeaveRoomMessageType, UserTypingMessageType]

/-- Witness for C1 (amended) on the registered single-user hub. -/
theorem hub_empty_room_dispatch_witness :
    handleIncomingMessage parseJoinId exReached
      { type := "text_message", username := "alice" } 5 =
      blockingSend exReached 0
        (errMsg "Your message could not be sent: RoomID or Username was missing." 5) :=
  (hub_empty_room_dispatch parseJoinId exReached
    { type := "text_message", username := "alice" } 5 0 (by decide)).1 rfl rfl

/-- C1 counterexample: a `user_typing` message with an empty roomID from
the registered user alice leaves the hub state — including alice's
outbound queue — completely unchanged, so no targeted `error_message` is
sent, contradicting the claim for the `user_typing` case. -/
theorem hub_empty_room_typing_silent_cex :
    handleIncomingMessage parseJoinId exReached
      { type := "user_typing", username := "alice" } 5 = exReached := by
  decide

/-! ## C2: server-to-client delivery order on a solo join -/

/-- The `global_user_count_update` alice receives first. -/
def exGlobalCountMsg : Msg :=
  { type := GlobalUserCountUpdateType, timestamp := 7, system := true,
    data := MsgData.globalCount 1 }

/-- The `recent_messages` envelope with the `r1` history. -/
def exRecentMsg : Msg :=
  { type := RecentMessagesType, roomID := "r1", timestamp := 7, system := true,
    data := MsgData.recentMessages "r1" ["m3", "m2", "m1"] }

/-- The `user_joined` system message for alice. -/
def exUserJoinedMsg : Msg :=
  { type := UserJoinedMessageType, content := "User alice joined the room.",
    username := "alice", roomID := "r1", timestamp := 7, system := true }

/-- The `user_list_update` listing only alice. -/
def exUserListMsg : Msg :=
  { type := UserListUpdateType, roomID := "r1", timestamp := 7, system := true,
    data := MsgData.userList "r1" ["alice"] }

/-- The `room_stats_update` with one active user and three messages. -/
def exRoomStatsMsg : Msg :=
  { type := RoomStatsUpdateType, roomID := "r1", timestamp := 7, system := true,
    data := MsgData.roomStats "r1" 1 3 }

/-- C2 (amended): registering alice (initial room `r1`, store history
`["m3","m2","m1"]`, counter 3) delivers to her queue, in FIFO order: the
`global_user_count_update` with count 1 FIRST, then the `recent_messages`
envelope `["m3","m2","m1"]`, the `user_joined`, the `user_list_update`
with `["alice"]`, and the `room_stats_update` with activeUsers 1 and
messageCount 3. -/
theorem solo_join_delivery_order :
    connQueue (handleClientRegistration exHub1 0 7) 0 =
      some [exGlobalCountMsg, exRecentMsg, exUserJoinedMsg, exUserListMsg, exRoomStatsMsg] := by
  decide

/-- C2 counterexample: the first message delivered to alice is the
`global_user_count_update`, not the `recent_messages` envelope the claim
puts first (with the global count last). -/
theorem solo_join_global_count_first_cex :
    ((connQueue (handleClientRegistration exHub1 0 7) 0).getD []).head?.map Msg.type =
      some GlobalUserCountUpdateType ∧ GlobalUserCountUpdateType ≠ RecentMessagesType := by
  exact ⟨by decide, by decide⟩

/-! ## C8: join followed by leave as a round trip -/

/-- C8 (amended): when the connection is not already a member of
`hub.rooms[r]`, its username is not already in the store set
`room:r:users`, and neither entry is present-but-empty, running the join
routine and then the leave routine restores `hub.rooms[r]` and
`room:r:users` exactly. -/
theorem join_leave_roundtrip (s : HubState) (cid : Nat) (r : String) (now now' : Nat)
    (hr : r ≠ "") (hu : connUsername s cid ≠ "")
    (hmem : cid ∉ (s.rooms.lookup r).getD [])
    (hroomne : (s.rooms.lookup r).getD [] = [] → s.rooms.lookup r = none)
    (husr : connUsername s cid ∉ (s.store.roomUsers.lookup r).getD [])
    (husrne : (s.store.roomUsers.lookup r).getD [] = [] → s.store.roomUsers.lookup r = none) :
    (handleClientLeaveRoom (handleClientJoinRoom s cid r now) cid r false now').rooms.lookup r
      = s.rooms.lookup r ∧
    (handleClientLeaveRoom (handleClientJoinRoom s cid r now) cid r false now').store.roomUsers.lookup r
      = s.store.roomUsers.lookup r := by
  have hjr : (handleClientJoinRoom s cid r now).rooms =
      assocSet s.rooms r ((s.rooms.lookup r).getD [] ++ [cid]) := by
    rw [rooms_handleClientJoinRoom s cid r now hr, if_neg hmem]
  have hju : (handleClientJoinRoom s cid r now).store.roomUsers =
      assocSet s.store.roomUsers r
        (connUsername s cid :: (s.store.roomUsers.lookup r).getD []) := by
    rw [roomUsers_handleClientJoinRoom s cid r now hr hu, if_neg husr]
  have hjuser : connUsername (handleClientJoinRoom s cid r now) cid = connUsername s cid :=
    connUsername_handleClientJoinRoom s cid r now cid
  have hlookr : (handleClientJoinRoom s cid r now).rooms.lookup r =
      some ((s.rooms.lookup r).getD [] ++ [cid]) := by
    rw [hjr, lookup_assocSet_self]
  have hmem2 : cid ∈ (s.rooms.lookup r).getD [] ++ [cid] :=
    List.mem_append.mpr (Or.inr (List.mem_cons_self cid []))
  have herase : ((s.rooms.lookup r).getD [] ++ [cid]).erase cid =
      (s.rooms.lookup r).getD [] := by
    rw [List.erase_append_right _ hmem, List.erase_cons_head, List.append_nil]
  constructor
  · rw [rooms_handleClientLeaveRoom_mem _ cid r false now' hr _ hlookr hmem2, herase]
    by_cases h0 : (s.rooms.lookup r).getD [] = []
    · rw [if_pos (by rw [h0]; rfl), lookup_assocRemove_self]
      exact (hroomne h0).symm
    · rw [if_neg (fun hc => h0 (List.isEmpty_iff.mp hc)), lookup_assocSet_self]
      cases hcase : s.rooms.lookup r with
      | none =>
        rw [hcase] at h0
        exact absurd rfl h0
      | some l => rfl
  · rw [store_handleClientLeaveRoom_mem _ cid r false now' hr _ hlookr hmem2, hjuser]
    have hlooku : (handleClientJoinRoom s cid r now).store.roomUsers.lookup r =
        some (connUsername s cid :: (s.store.roomUsers.lookup r).getD []) := by
      rw [hju, lookup_assocSet_self]
    rw [roomUsers_removeActive_exceptD _ r (connUsername s cid) _ hr hu hlooku]
    by_cases h0 : (s.store.roomUsers.lookup r).getD [] = []
    · rw [if_pos (by rw [h0]; rfl), lookup_assocRemove_self]
      exact (husrne h0).symm
    · rw [if_neg (fun hc => h0 (List.isEmpty_iff.mp hc)), lookup_assocSet_self]
      cases hcase : s.store.roomUsers.lookup r with
      | none =>
        rw [hcase] at h0
        exact absurd rfl h0
      | some l => rfl

/-- A registered connection for alice that is in no room yet. -/
def exHubFresh : HubState :=
  { conns := [(0, { username := "alice" })], clients := [0],
    store := { globalUsers := ["alice"] } }

/-- Witness for C8 (amended): join then leave from a fresh state restores
the room map entry and the store set. -/
theorem join_leave_roundtrip_witness :
    (handleClientLeaveRoom (handleClientJoinRoom exHubFresh 0 "r1" 3) 0 "r1" false 4).rooms.lookup "r1"
      = exHubFresh.rooms.lookup "r1" ∧
    (handleClientLeaveRoom (handleClientJoinRoom exHubFresh 0 "r1" 3) 0 "r1" false 4).store.roomUsers.lookup "r1"
      = exHubFresh.store.roomUsers.lookup "r1" :=
  join_leave_roundtrip exHubFresh 0 "r1" 3 4 (by decide) (by decide) (by decide)
    (fun _ => rfl) (by decide) (fun _ => rfl)

/-- C8 counterexample: from the reachable state where alice is already a
member of `r1` (reached by registering her with initial room `r1`),
running join then leave does NOT restore the state: the room entry and
the store set entry are gone. -/
theorem join_leave_roundtrip_cex :
    (handleClientLeaveRoom (handleClientJoinRoom exReached 0 "r1" 3) 0 "r1" false 4).rooms.lookup "r1"
      = none ∧
    exReached.rooms.lookup "r1" = some [0] ∧
    (handleClientLeaveRoom (handleClientJoinRoom exReached 0 "r1" 3) 0 "r1" false 4).store.roomUsers.lookup "r1"
      = none ∧
    exReached.store.roomUsers.lookup "r1" = some ["alice"] := by
  refine ⟨by decide, by decide, by decide, by decide⟩
